import Mathlib

/-!
Shallow embedding of `src/window.rs` of the gameoflife repository.

The interactive state machine (`State::input`, `State::update`) is modelled as
pure state transitions.  The only `f32` values that ever occur are `-1000.0`,
`0.0` and `x as f32` for a `u32` x; every one of these is an integer, so the
`f32` components of the uniforms are represented as exact `Int` values, with
the `u32 -> f32` cast modelled by explicit round-to-nearest-even to a 24-bit
significand.  `State::render` is modelled as a function from the outcome of
`surface.get_current_texture()` to its `Result` together with the trace of GPU
commands it records.  The byte layout of the `repr(C)` `Uniforms` struct (as
cast by `bytemuck` on the little-endian wasm32 target) is modelled at the level
of 32-bit bit patterns.
-/

namespace GameOfLife

/-- The sentinel `MOUSE_INACTIVE = [-1000.0, 0.0]` from `State::update`. -/
def MOUSE_INACTIVE : Int × Int := (-1000, 0)

/-- Round `x` to the nearest multiple of `m`, ties to the even multiple. -/
def rne (x m : Nat) : Nat :=
  let q := x / m
  let r := x % m
  if 2 * r < m then q * m
  else if m < 2 * r then (q + 1) * m
  else if q % 2 = 0 then q * m else (q + 1) * m

/-- Exact value of the Rust cast `x as f32` for a `u32` x.  Below `2^24` the
cast is exact; above, IEEE-754 binary32 rounds to the nearest representable
value, which drops all but the top 24 significant bits (round to nearest, ties
to even).  The result is always a nonnegative integer. -/
def u32ToF32 (x : Nat) : Int :=
  if x < 2 ^ 24 then (x : Int)
  else ((rne x (2 ^ (Nat.log2 x - 23)) : Nat) : Int)

/-- The `Uniforms` struct: `mouse_pos: [f32; 2]`, `seed: [f32; 2]`, with each
f32 component represented by its exact integer value. -/
structure Uniforms where
  mouse_pos : Int × Int
  seed : Int × Int
deriving DecidableEq, Repr

/-- `Uniforms::new`: `mouse_pos = [-1000.0, 0.0]`, `seed = [0.0, 0.0]`. -/
def Uniforms.new : Uniforms :=
  { mouse_pos := (-1000, 0), seed := (0, 0) }

/-- The `CanvasEvent` enum from `window.rs`. -/
inductive CanvasEvent where
  | MouseMove (x y : Nat)
  | MouseDown
  | MouseUp
deriving DecidableEq, Repr

/-- The mutable fields of `State` that the input/update logic touches:
`mousedown`, `last_mousepos`, `start_mousepos` (u32 pairs) and the CPU-side
`uniforms` value mirrored into the GPU buffer. -/
structure State where
  mousedown : Bool
  last_mousepos : Option (Nat × Nat)
  start_mousepos : Option (Nat × Nat)
  uniforms : Uniforms
deriving DecidableEq, Repr

/-- The state as built by `State::new`: `mousedown = false`, both positions
`None`, uniforms from `Uniforms::new`. -/
def initState : State :=
  { mousedown := false
    last_mousepos := none
    start_mousepos := none
    uniforms := Uniforms.new }

/-- `State::input`.  Returns the new state together with the `bool` return
value.  The `MouseMove` arm keeps the source's early-`return false` branch
(taken when the button is up or no previous position existed); every path
returns `false`. -/
def State.input (s : State) (e : CanvasEvent) : State × Bool :=
  match e with
  | CanvasEvent.MouseDown =>
      ({ s with mousedown := true, start_mousepos := s.last_mousepos }, false)
  | CanvasEvent.MouseUp =>
      ({ s with mousedown := false }, false)
  | CanvasEvent.MouseMove x y =>
      let old_mousepos := s.last_mousepos
      let s2 := { s with last_mousepos := some (x, y) }
      if !s2.mousedown || old_mousepos.isNone then (s2, false) else (s2, false)

/-- The closure `|(x, y)| [x as f32, y as f32]` applied through
`Option::map_or(MOUSE_INACTIVE, _)`, as used twice in `State::update`. -/
def mapOrInactive (o : Option (Nat × Nat)) : Int × Int :=
  match o with
  | some p => (u32ToF32 p.1, u32ToF32 p.2)
  | none => MOUSE_INACTIVE

/-- `State::update`: recompute both uniform fields from the interaction state
and (in the source) write the result into the GPU buffer. -/
def State.update (s : State) : State :=
  let mousepos := mapOrInactive s.last_mousepos
  let seed := mapOrInactive s.start_mousepos
  let mousepos := if !s.mousedown then MOUSE_INACTIVE else mousepos
  { s with uniforms := { mouse_pos := mousepos, seed := seed } }

/-- One iteration of the event loop in `run`: `state.input(&event)` followed by
`state.update()`. -/
def step (s : State) (e : CanvasEvent) : State :=
  (s.input e).1.update

/-- The state after processing a whole event sequence from the initial state. -/
def run (es : List CanvasEvent) : State :=
  es.foldl step initState

/-- Textures named in `State::render`: the source texture `texture`, the
offscreen `texture_target`, and the view of the acquired surface texture. -/
inductive TextureId where
  | texture
  | texture_target
  | surface_texture
deriving DecidableEq, Repr

/-- The two render pipelines built in `State::new`. -/
inductive PipelineId where
  | compute_pipeline
  | render_pipeline
deriving DecidableEq, Repr

/-- The bind groups built in `State::new`. -/
inductive BindGroupId where
  | texture_bind_group
  | texture_target_bind_group
  | uniforms_bind_group
deriving DecidableEq, Repr

/-- A `wgpu::Color` clear value, componentwise exact rationals. -/
structure Color where
  r : ℚ
  g : ℚ
  b : ℚ
  a : ℚ
deriving DecidableEq, Repr

/-- GPU commands recorded or issued by `State::render`, in order.  A `draw`
carries the vertex range and instance range of `RenderPass::draw`; there is no
indexed-draw constructor because the source never sets an index buffer. -/
inductive GpuCmd where
  | beginRenderPass (attachment : TextureId) (clear : Color)
  | setPipeline (p : PipelineId)
  | setBindGroup (index : Nat) (g : BindGroupId)
  | draw (vertexStart vertexEnd instanceStart instanceEnd : Nat)
  | endPass
  | copyTextureToTexture (src dst : TextureId) (srcMip dstMip : Nat)
      (extent : Nat × Nat × Nat)
  | submit
  | present
deriving DecidableEq, Repr

/-- The variants of `wgpu::SurfaceError` that `get_current_texture` can
return. -/
inductive SurfaceError where
  | Timeout
  | Outdated
  | Lost
  | OutOfMemory
deriving DecidableEq, Repr

/-- The clear color `(r: 0.1, g: 0.2, b: 0.3, a: 1.0)` used by both render
passes. -/
def clearColor : Color :=
  { r := 1 / 10, g := 2 / 10, b := 3 / 10, a := 1 }

/-- `texture_size`: `Extent3d { width: 1024, height: 1024,
depth_or_array_layers: 1 }`. -/
def texture_size : Nat × Nat × Nat := (1024, 1024, 1)

/-- The command trace recorded and issued by a successful `State::render`:
the "compute pass" into `texture_target_view`, the full-texture copy from
`texture_target` to `texture` at mip level 0, the "render pass" into the
surface view, one queue submission, one present. -/
def renderCommands : List GpuCmd :=
  [ GpuCmd.beginRenderPass TextureId.texture_target clearColor,
    GpuCmd.setPipeline PipelineId.compute_pipeline,
    GpuCmd.setBindGroup 0 BindGroupId.texture_bind_group,
    GpuCmd.setBindGroup 1 BindGroupId.uniforms_bind_group,
    GpuCmd.draw 0 3 0 1,
    GpuCmd.endPass,
    GpuCmd.copyTextureToTexture TextureId.texture_target TextureId.texture 0 0
      texture_size,
    GpuCmd.beginRenderPass TextureId.surface_texture clearColor,
    GpuCmd.setPipeline PipelineId.render_pipeline,
    GpuCmd.setBindGroup 0 BindGroupId.texture_target_bind_group,
    GpuCmd.setBindGroup 1 BindGroupId.uniforms_bind_group,
    GpuCmd.draw 0 3 0 1,
    GpuCmd.endPass,
    GpuCmd.submit,
    GpuCmd.present ]

/-- `State::render`, parameterised by the outcome of
`self.surface.get_current_texture()`.  The `?` operator on a failed
acquisition returns the error before the command encoder is even created, so
the recorded command trace is empty; on success the full trace is recorded and
`Ok(())` is returned. -/
def render (acquire : Except SurfaceError Unit) :
    Except SurfaceError Unit × List GpuCmd :=
  match acquire with
  | Except.error e => (Except.error e, [])
  | Except.ok _ => (Except.ok (), renderCommands)

/-- The four `f32` bit patterns of a `Uniforms` value in field order, as seen
by the `bytemuck::Pod` byte cast of the `repr(C)` struct. -/
structure UniformsBits where
  mouse_pos_x : Nat
  mouse_pos_y : Nat
  seed_x : Nat
  seed_y : Nat
deriving DecidableEq, Repr

/-- The four little-endian bytes of a 32-bit word. -/
def leBytes4 (n : Nat) : List Nat :=
  [n % 256, n / 256 % 256, n / 256 ^ 2 % 256, n / 256 ^ 3 % 256]

/-- `bytemuck::cast_slice(&[uniforms])` on the little-endian wasm32 target:
the 16 bytes of the `repr(C)` struct, fields in declaration order, each f32 as
its four little-endian bytes, no padding. -/
def castSliceBytes (u : UniformsBits) : List Nat :=
  leBytes4 u.mouse_pos_x ++ leBytes4 u.mouse_pos_y ++
    leBytes4 u.seed_x ++ leBytes4 u.seed_y

/-- Reassemble a 32-bit word from four little-endian bytes. -/
def fromLeBytes4 (b0 b1 b2 b3 : Nat) : Nat :=
  b0 + 256 * b1 + 256 ^ 2 * b2 + 256 ^ 3 * b3

/-- Deserialize 16 bytes back into a `UniformsBits` value (the readback
direction of the round trip); any other length fails. -/
def readUniformsBytes (bs : List Nat) : Option UniformsBits :=
  match bs with
  | [a0, a1, a2, a3, b0, b1, b2, b3, c0, c1, c2, c3, d0, d1, d2, d3] =>
      some { mouse_pos_x := fromLeBytes4 a0 a1 a2 a3
             mouse_pos_y := fromLeBytes4 b0 b1 b2 b3
             seed_x := fromLeBytes4 c0 c1 c2 c3
             seed_y := fromLeBytes4 d0 d1 d2 d3 }
  | _ => none

/-- The payload of the most recent `MouseMove` in a sequence, stated from the
spec's words for comparison with the code's `last_mousepos`. -/
def lastMouseMove (es : List CanvasEvent) : Option (Nat × Nat) :=
  es.foldl
    (fun acc e =>
      match e with
      | CanvasEvent.MouseMove x y => some (x, y)
      | _ => acc)
    none

/-- The most recent button event of a sequence, `some true` for `MouseDown`,
`some false` for `MouseUp`, `none` if the sequence has neither; stated from
the claim's words for comparison with the code's `mousedown` flag. -/
def lastButton (es : List CanvasEvent) : Option Bool :=
  es.foldl
    (fun acc e =>
      match e with
      | CanvasEvent.MouseDown => some true
      | CanvasEvent.MouseUp => some false
      | _ => acc)
    none

/- ### Helper lemmas -/

theorem run_append (es : List CanvasEvent) (e : CanvasEvent) :
    run (es ++ [e]) = step (run es) e := by
  simp [run, List.foldl_append]

theorem update_mousedown (s : State) : s.update.mousedown = s.mousedown := rfl

theorem update_last_mousepos (s : State) :
    s.update.last_mousepos = s.last_mousepos := rfl

theorem update_start_mousepos (s : State) :
    s.update.start_mousepos = s.start_mousepos := rfl

theorem update_mouse_pos_of_up (s : State) (h : s.mousedown = false) :
    s.update.uniforms.mouse_pos = MOUSE_INACTIVE := by
  simp [State.update, h]

theorem u32ToF32_nonneg (x : Nat) : 0 ≤ u32ToF32 x := by
  unfold u32ToF32
  split <;> exact Int.natCast_nonneg _

theorem mapOrInactive_eq_sentinel (o : Option (Nat × Nat)) :
    mapOrInactive o = MOUSE_INACTIVE ↔ o = none := by
  cases o with
  | none => simp [mapOrInactive]
  | some p =>
      simp only [mapOrInactive, MOUSE_INACTIVE, Option.some_ne_none, iff_false,
        Prod.mk.injEq, not_and]
      intro h1
      have := u32ToF32_nonneg p.1
      omega

theorem step_seed (s : State) (e : CanvasEvent) :
    (step s e).uniforms.seed = mapOrInactive ((step s e).start_mousepos) := by
  cases e <;> simp [step, State.input, State.update]

theorem step_mouseup_start (s : State) :
    (step s CanvasEvent.MouseUp).start_mousepos = s.start_mousepos := rfl

theorem step_mousedown_eq (s : State) (e : CanvasEvent) :
    (step s e).mousedown = ((s.input e).1).mousedown :=
  update_mousedown _

theorem step_last_mousepos (s : State) (e : CanvasEvent) :
    (step s e).last_mousepos =
      match e with
      | CanvasEvent.MouseMove x y => some (x, y)
      | _ => s.last_mousepos := by
  cases e <;> simp [step, State.input, State.update]

theorem last_mousepos_foldl (es : List CanvasEvent) : ∀ (s : State),
    (es.foldl step s).last_mousepos =
      es.foldl
        (fun acc e =>
          match e with
          | CanvasEvent.MouseMove x y => some (x, y)
          | _ => acc)
        s.last_mousepos := by
  induction es with
  | nil => intro s; rfl
  | cons e es ih =>
      intro s
      rw [List.foldl_cons, List.foldl_cons, ih]
      congr 1
      exact step_last_mousepos s e

/- ### Claim theorems -/

/-- Claim C1, counterexample: after processing the single event `MouseDown`
(which the sequence plainly contains), the seed uniform equals the sentinel
`(-1000.0, 0.0)` — contradicting the claim that the seed uniform never equals
the sentinel after the first `MouseDown` has been processed. -/
theorem C1_seed_counterexample :
    (run [CanvasEvent.MouseDown]).uniforms.seed = MOUSE_INACTIVE ∧
    CanvasEvent.MouseDown ∈ [CanvasEvent.MouseDown] := by
  decide

/-- Claim C1, amended: after at least one event has been processed, the seed
uniform equals the sentinel `(-1000.0, 0.0)` exactly when `start_mousepos` is
`None` (no `MouseMove` had been processed before the most recent `MouseDown`,
or no `MouseDown` has been processed at all); and the seed uniform is
unchanged by a subsequent `MouseUp`. -/
theorem C1_seed_sentinel_iff (es : List CanvasEvent) (h : es ≠ []) :
    ((run es).uniforms.seed = MOUSE_INACTIVE ↔
      (run es).start_mousepos = none) ∧
    (run (es ++ [CanvasEvent.MouseUp])).uniforms.seed =
      (run es).uniforms.seed := by
  obtain ⟨es', e, rfl⟩ := (List.eq_nil_or_concat es).resolve_left h
  simp only [List.concat_eq_append]
  have h1 : (run (es' ++ [e])).uniforms.seed =
      mapOrInactive ((run (es' ++ [e])).start_mousepos) := by
    rw [run_append]; exact step_seed _ _
  refine ⟨h1 ▸ mapOrInactive_eq_sentinel _, ?_⟩
  rw [run_append (es' ++ [e]) CanvasEvent.MouseUp, step_seed,
    step_mouseup_start, h1]

/-- Claim C1, witness for the amended theorem at the concrete sequence
`[MouseMove 5 6]`. -/
theorem C1_seed_sentinel_iff_witness :
    ([CanvasEvent.MouseMove 5 6] ≠ ([] : List CanvasEvent)) ∧
    (((run [CanvasEvent.MouseMove 5 6]).uniforms.seed = MOUSE_INACTIVE ↔
        (run [CanvasEvent.MouseMove 5 6]).start_mousepos = none) ∧
      (run ([CanvasEvent.MouseMove 5 6] ++ [CanvasEvent.MouseUp])).uniforms.seed =
        (run [CanvasEvent.MouseMove 5 6]).uniforms.seed) :=
  ⟨by decide, C1_seed_sentinel_iff [CanvasEvent.MouseMove 5 6] (by decide)⟩

/-- Claim C2: in every state reachable from the initial state by processing a
sequence of events (input followed by update for each), if `mousedown` is
false then the `mouse_pos` uniform equals the sentinel `(-1000.0, 0.0)`. -/
theorem C2_mouse_pos_sentinel_when_up (es : List CanvasEvent) :
    (run es).mousedown = false →
    (run es).uniforms.mouse_pos = MOUSE_INACTIVE := by
  induction es using List.reverseRecOn with
  | nil => intro _; rfl
  | append_singleton es e _ =>
      rw [run_append]
      intro h
      exact update_mouse_pos_of_up _ ((update_mousedown _).symm.trans h)

/-- Claim C2, witness at the concrete sequence `[MouseMove 7 8, MouseUp]`. -/
theorem C2_mouse_pos_sentinel_when_up_witness :
    (run [CanvasEvent.MouseMove 7 8, CanvasEvent.MouseUp]).mousedown = false ∧
    (run [CanvasEvent.MouseMove 7 8, CanvasEvent.MouseUp]).uniforms.mouse_pos =
      MOUSE_INACTIVE :=
  ⟨by decide,
    C2_mouse_pos_sentinel_when_up
      [CanvasEvent.MouseMove 7 8, CanvasEvent.MouseUp] (by decide)⟩

/-- Claim C3: processing a `MouseMove` or a `MouseUp` (input followed by
update) leaves `start_mousepos` unchanged in every state, and processing a
`MouseDown` sets it to exactly the value `last_mousepos` held immediately
before that `MouseDown`. -/
theorem C3_start_mousepos_only_on_mousedown (s : State) (x y : Nat) :
    (step s (CanvasEvent.MouseMove x y)).start_mousepos = s.start_mousepos ∧
    (step s CanvasEvent.MouseUp).start_mousepos = s.start_mousepos ∧
    (step s CanvasEvent.MouseDown).start_mousepos = s.last_mousepos := by
  refine ⟨?_, rfl, rfl⟩
  simp [step, State.input, State.update]

/-- Claim C4: after any event sequence, `last_mousepos` is the payload of the
most recent `MouseMove` (and `None` if there was no `MouseMove`), regardless
of the `mousedown` state along the way. -/
theorem C4_last_mousepos_most_recent_move (es : List CanvasEvent) :
    (run es).last_mousepos = lastMouseMove es :=
  last_mousepos_foldl es initState

/-- Claim C5: the concrete scenario `MouseMove(50,60)`, `MouseDown`,
`MouseMove(70,80)` yields `start_mousepos = (50,60)`,
`last_mousepos = (70,80)`, uniform `mouse_pos = (70,80)` and uniform
`seed = (50,60)`; a further `MouseUp` resets the `mouse_pos` uniform to the
sentinel while the seed uniform stays `(50,60)`. -/
theorem C5_scenario_2_and_3 :
    (run [CanvasEvent.MouseMove 50 60, CanvasEvent.MouseDown,
      CanvasEvent.MouseMove 70 80]).start_mousepos = some (50, 60) ∧
    (run [CanvasEvent.MouseMove 50 60, CanvasEvent.MouseDown,
      CanvasEvent.MouseMove 70 80]).last_mousepos = some (70, 80) ∧
    (run [CanvasEvent.MouseMove 50 60, CanvasEvent.MouseDown,
      CanvasEvent.MouseMove 70 80]).uniforms.mouse_pos = (70, 80) ∧
    (run [CanvasEvent.MouseMove 50 60, CanvasEvent.MouseDown,
      CanvasEvent.MouseMove 70 80]).uniforms.seed = (50, 60) ∧
    (run [CanvasEvent.MouseMove 50 60, CanvasEvent.MouseDown,
      CanvasEvent.MouseMove 70 80,
      CanvasEvent.MouseUp]).uniforms.mouse_pos = (-1000, 0) ∧
    (run [CanvasEvent.MouseMove 50 60, CanvasEvent.MouseDown,
      CanvasEvent.MouseMove 70 80,
      CanvasEvent.MouseUp]).uniforms.seed = (50, 60) := by
  decide

/-- Claim C6: serializing any `Uniforms` value (four 32-bit f32 patterns) the
way the `bytemuck` cast of the `repr(C)` struct does yields exactly 16 bytes,
the four fields in order `[mouse_pos.x, mouse_pos.y, seed.x, seed.y]` each as
little-endian bytes with no padding, and deserializing those bytes restores
the identical value. -/
theorem C6_uniforms_bytes_roundtrip (u : UniformsBits)
    (h1 : u.mouse_pos_x < 2 ^ 32) (h2 : u.mouse_pos_y < 2 ^ 32)
    (h3 : u.seed_x < 2 ^ 32) (h4 : u.seed_y < 2 ^ 32) :
    (castSliceBytes u).length = 16 ∧
    readUniformsBytes (castSliceBytes u) = some u := by
  obtain ⟨a, b, c, d⟩ := u
  refine ⟨rfl, ?_⟩
  simp only [castSliceBytes, leBytes4, readUniformsBytes, fromLeBytes4,
    List.cons_append, List.nil_append, Option.some.injEq, UniformsBits.mk.injEq]
  refine ⟨?_, ?_, ?_, ?_⟩ <;> simp_all <;> omega

/-- Claim C6, witness at the concrete bit patterns
`(4294967295, 0, 1, 33023)`. -/
theorem C6_uniforms_bytes_roundtrip_witness :
    ((4294967295 : Nat) < 2 ^ 32 ∧ (0 : Nat) < 2 ^ 32 ∧
      (1 : Nat) < 2 ^ 32 ∧ (33023 : Nat) < 2 ^ 32) ∧
    ((castSliceBytes ⟨4294967295, 0, 1, 33023⟩).length = 16 ∧
      readUniformsBytes (castSliceBytes ⟨4294967295, 0, 1, 33023⟩) =
        some ⟨4294967295, 0, 1, 33023⟩) :=
  ⟨⟨by decide, by decide, by decide, by decide⟩,
    C6_uniforms_bytes_roundtrip ⟨4294967295, 0, 1, 33023⟩
      (by decide) (by decide) (by decide) (by decide)⟩

/-- Claim C7: if acquiring the surface texture fails, `render` returns that
surface error with an empty command trace (no passes recorded, nothing
submitted, nothing presented); if acquisition succeeds, it returns `Ok(())`. -/
theorem C7_render_error_propagation (e : SurfaceError) :
    (render (Except.error e)).1 = Except.error e ∧
    (render (Except.error e)).2 = [] ∧
    (render (Except.ok ())).1 = Except.ok () :=
  ⟨rfl, rfl, rfl⟩

/-- Claim C8: a successful `render` records, in order, the compute pass into
the target texture (cleared to `(0.1, 0.2, 0.3, 1.0)`, source texture and
uniforms bound, 3 vertices drawn without an index buffer on the compute
pipeline), the full `1024x1024` mip-0 copy of the target texture into the
source texture, the present pass into the surface view (same clear color,
target texture and uniforms bound, 3 vertices on the present pipeline), then
exactly one queue submission and one present. -/
theorem C8_render_command_order :
    (render (Except.ok ())).2 =
      [ GpuCmd.beginRenderPass TextureId.texture_target
          { r := 1 / 10, g := 2 / 10, b := 3 / 10, a := 1 },
        GpuCmd.setPipeline PipelineId.compute_pipeline,
        GpuCmd.setBindGroup 0 BindGroupId.texture_bind_group,
        GpuCmd.setBindGroup 1 BindGroupId.uniforms_bind_group,
        GpuCmd.draw 0 3 0 1,
        GpuCmd.endPass,
        GpuCmd.copyTextureToTexture TextureId.texture_target TextureId.texture
          0 0 (1024, 1024, 1),
        GpuCmd.beginRenderPass TextureId.surface_texture
          { r := 1 / 10, g := 2 / 10, b := 3 / 10, a := 1 },
        GpuCmd.setPipeline PipelineId.render_pipeline,
        GpuCmd.setBindGroup 0 BindGroupId.texture_target_bind_group,
        GpuCmd.setBindGroup 1 BindGroupId.uniforms_bind_group,
        GpuCmd.draw 0 3 0 1,
        GpuCmd.endPass,
        GpuCmd.submit,
        GpuCmd.present ] ∧
    (render (Except.ok ())).2.count GpuCmd.submit = 1 ∧
    (render (Except.ok ())).2.count GpuCmd.present = 1 := by
  refine ⟨rfl, ?_, ?_⟩ <;> rfl

/-- Claim C9: `input` returns false for every event in every state, including
the early-return branch of `MouseMove`, so no event signals a redraw through
the return value. -/
theorem C9_input_always_false (s : State) (e : CanvasEvent) :
    (s.input e).2 = false := by
  cases e with
  | MouseMove x y =>
      simp only [State.input]
      split <;> rfl
  | MouseDown => rfl
  | MouseUp => rfl

/-- Claim C10: after any event sequence from the initial state, `mousedown`
is true exactly when the sequence contains a button event and the most recent
one is `MouseDown`; and a `MouseMove` never changes `mousedown` in any
state. -/
theorem C10_mousedown_last_button (es : List CanvasEvent) :
    ((run es).mousedown = true ↔ lastButton es = some true) ∧
    (∀ (s : State) (x y : Nat),
      (step s (CanvasEvent.MouseMove x y)).mousedown = s.mousedown) := by
  constructor
  · induction es using List.reverseRecOn with
    | nil => simp [run, lastButton, initState]
    | append_singleton es e ih =>
        rw [run_append]
        cases e with
        | MouseMove x y =>
            have h1 : (step (run es) (CanvasEvent.MouseMove x y)).mousedown =
                (run es).mousedown := by
              simp [step, State.input, State.update]
            have h2 : lastButton (es ++ [CanvasEvent.MouseMove x y]) =
                lastButton es := by
              simp [lastButton, List.foldl_append]
            rw [h1, h2]; exact ih
        | MouseDown =>
            simp [step, State.input, State.update, lastButton,
              List.foldl_append]
        | MouseUp =>
            simp [step, State.input, State.update, lastButton,
              List.foldl_append]
  · intro s x y
    simp [step, State.input, State.update]

end GameOfLife
